import Mathlib

/-!
Shallow embedding of the image-drift-generator sources
(`src/generate_frames.py`, `src/encode_webm.py`, `src/errors.py`).

Pure Python functions become Lean functions; module-level configuration
globals become fields of an explicit `Config` record; the filesystem and
the process-wide random source become explicit state threaded through
`generate_frames`.  Python floats are modelled as rational numbers where
the code only compares and rounds them, and as real numbers in the
trigonometric motion math.
-/

namespace ImageDrift

/-- `src/errors.py`: the exception taxonomy.  `ConfigError` and
`GenerationError` are the two variants `generate_frames.py` can raise
(`EncoderError` belongs to the encoder, which raises none of the
functions modelled here). -/
inductive Err where
  | config (msg : String)
  | generation (msg : String)
deriving DecidableEq, Repr

/-- The process-wide random source (`random` module), modelled as a
stream of natural numbers consumed one draw at a time. -/
abbrev Rng : Type := List Nat

/-- `random.randint(lo, hi)`: modelled from the library contract — one
value is consumed from the stream and mapped into the inclusive range
`[lo, hi]`. -/
def randint (lo hi : Int) (rng : Rng) : Int × Rng :=
  (lo + (rng.headD 0 : Int) % (hi - lo + 1), rng.tail)

/-- An `OpenSimplex` generator is fully determined by the integer seed it
was constructed with; its `noise2d` method is a pure function of the seed
and the query coordinates (the library itself is an external
collaborator, so the noise function stays abstract). -/
structure OpenSimplex where
  seed : Int
deriving DecidableEq, Repr

/-- Accumulator pass of decimal parsing: consumes the remaining
characters, failing on the first non-digit. -/
def digitsToNat : List Char → Nat → Option Nat
  | [], acc => some acc
  | c :: cs, acc =>
    if c.isDigit then digitsToNat cs (acc * 10 + (c.toNat - 48)) else none

/-- Python `int(s)` on a string: an optional sign followed by at least
one decimal digit parses to the integer; everything else raises
`ValueError`, modelled as `none`.  (Python additionally tolerates
surrounding whitespace and grouping underscores; those forms play no role
here and are modelled as failures.) -/
def pyInt (s : String) : Option Int :=
  match s.data with
  | [] => none
  | '-' :: cs =>
    if cs = [] then none else (digitsToNat cs 0).map (fun n => -(n : Int))
  | '+' :: cs =>
    if cs = [] then none else (digitsToNat cs 0).map (fun n => (n : Int))
  | cs => (digitsToNat cs 0).map (fun n => (n : Int))

/-- `make_noise(seed)` from `src/generate_frames.py`: empty or missing
seed draws a random one in `[0, 2^30 - 1]`; otherwise `int(seed)` is
attempted and a failed parse falls back to the same random draw.  Returns
the generator together with the seed actually used. -/
def make_noise (seed : Option String) (rng : Rng) : (OpenSimplex × Int) × Rng :=
  let (seed_int, rng') :=
    match seed with
    | none => randint 0 (2 ^ 30 - 1) rng
    | some s =>
      if s = "" then randint 0 (2 ^ 30 - 1) rng
      else
        match pyInt s with
        | some k => (k, rng)
        | none => randint 0 (2 ^ 30 - 1) rng
  ((⟨seed_int⟩, seed_int), rng')

example : pyInt "123" = some 123 := by decide
example : pyInt "" = none := by decide
example : pyInt "abc" = none := by decide
example : pyInt "-42" = some (-42) := by decide
example : pyInt "5.0" = none := by decide

/-- The module-level configuration globals of `src/generate_frames.py`
(values already resolved from the environment, in source order).
`TARGET_PIXEL_WIDTH` stays `""` when unset and is converted to an int
otherwise, modelled as an `Option Int`.  Python float parameters are
modelled as rationals here; they are cast to real numbers where the
motion math consumes them. -/
structure Config where
  input_image : String
  output_dir : String
  frames_dir : String
  final_dir : String
  basename : String
  out_w : Int
  out_h : Int
  duration_seconds : Rat
  fps : Int
  total_frames : Int
  target_pixel_width : Option Int
  scale : Rat
  base_pos_mode : String
  base_center_offset_x : Int
  base_center_offset_y : Int
  base_x : Int
  base_y : Int
  motion_mode : String
  amp_x : Rat
  amp_y : Rat
  noise_timescale_seconds : Rat
  noise_seed : String
  sine_cycles_x : Rat
  sine_cycles_y : Rat
deriving DecidableEq, Repr

/-- Truthiness of the `TARGET_PIXEL_WIDTH` global: the empty string
(`none`) and the integer `0` are falsy, every other integer is truthy. -/
def tpwTruthy : Option Int → Bool
  | none => false
  | some t => t != 0

/-- The error messages accumulated by `validate_config` (messages kept
without the interpolated offending values, which no property here
inspects), in source order. -/
def config_errors (cfg : Config) : List String :=
  (if cfg.input_image = "" then ["INPUT_IMAGE not set"] else []) ++
  (if cfg.out_w ≤ 0 then ["OUT_W must be positive"] else []) ++
  (if cfg.out_h ≤ 0 then ["OUT_H must be positive"] else []) ++
  (if cfg.duration_seconds ≤ 0 then ["DURATION_SECONDS must be positive"] else []) ++
  (if cfg.fps ≤ 0 then ["FPS must be positive"] else []) ++
  (if cfg.total_frames ≤ 0 then ["TOTAL_FRAMES must be positive"] else []) ++
  (if cfg.scale ≤ 0 then ["SCALE must be positive"] else []) ++
  (if tpwTruthy cfg.target_pixel_width ∧ cfg.target_pixel_width.getD 0 ≤ 0 then
    ["TARGET_PIXEL_WIDTH must be positive"] else []) ++
  (if cfg.motion_mode = "perlin" ∨ cfg.motion_mode = "sine" then [] else
    ["MOTION_MODE must be perlin or sine"]) ++
  (if cfg.noise_timescale_seconds ≤ 0 then ["NOISE_TIMESCALE_SECONDS must be positive"] else []) ++
  (if cfg.sine_cycles_x < 0 then ["SINE_CYCLES_X must be non-negative"] else []) ++
  (if cfg.sine_cycles_y < 0 then ["SINE_CYCLES_Y must be non-negative"] else []) ++
  (if cfg.base_pos_mode = "center" ∨ cfg.base_pos_mode = "coords" then [] else
    ["BASE_POS_MODE must be center or coords"])

/-- `validate_config()`: raises `ConfigError` when any check failed. -/
def validate_config (cfg : Config) : Option Err :=
  if config_errors cfg = [] then none
  else some (.config "Configuration validation failed")

/-- Contents of a path on disk, as far as the program can observe them:
a decodable still image with its pixel dimensions, a rendered RGBA
output frame (canvas size, pasted image size and integer paste
coordinates — the pixel payload itself lives in the external image
library), or an existing file that is not a decodable image. -/
inductive FileData where
  | image (w h : Nat)
  | png (canvas_w canvas_h img_w img_h : Int) (paste : Int × Int)
  | other
deriving DecidableEq, Repr

/-- The filesystem as the program observes it: an association list of
files (later writes shadow earlier ones) plus the set of directories. -/
structure FS where
  files : List (String × FileData)
  dirs : List String
deriving DecidableEq, Repr

def lookupFile (fs : FS) (path : String) : Option FileData :=
  (fs.files.find? (fun p => p.1 = path)).map Prod.snd

def writeFile (fs : FS) (path : String) (d : FileData) : FS :=
  { fs with files := (path, d) :: fs.files }

def addDir (ds : List String) (d : String) : List String :=
  if d ∈ ds then ds else ds ++ [d]

/-- `ensure_dirs()`: `os.makedirs(..., exist_ok=True)` on `FRAMES_DIR`
and `FINAL_DIR` — idempotent directory creation, touching no files. -/
def ensure_dirs (cfg : Config) (fs : FS) : FS :=
  { fs with dirs := addDir (addDir fs.dirs cfg.frames_dir) cfg.final_dir }

/-- Multiplication of rationals, written through `Rat.divInt` (the
library's `Rat.mul` is equal but marked irreducible, which would block
evaluation inside the kernel). -/
def ratMul (a b : Rat) : Rat :=
  Rat.divInt (a.num * b.num) ((a.den : Int) * (b.den : Int))

/-- Division of rationals, written through `Rat.divInt` for the same
reason; like Python's float division of nonzero operands except that
division by zero yields `0` here (no run below divides by zero). -/
def ratDiv (a b : Rat) : Rat :=
  Rat.divInt (a.num * (b.den : Int)) ((a.den : Int) * b.num)

/-- Python `round` on an exact rational value: nearest integer, ties to
the even neighbour (banker's rounding), computed on the numerator and
denominator.  `f` is the floor, `rnum / den` the fractional part. -/
def py_round (q : Rat) : Int :=
  let f := q.num.fdiv (q.den : Int)
  let rnum := q.num - f * (q.den : Int)
  if 2 * rnum < (q.den : Int) then f
  else if (q.den : Int) < 2 * rnum then f + 1
  else if f % 2 = 0 then f else f + 1

example : py_round (mkRat 5 2) = 2 := by decide
example : py_round (mkRat 7 2) = 4 := by decide
example : py_round (mkRat 13 10) = 1 := by decide
example : py_round (mkRat (-3) 2) = -2 := by decide

/-- The scaled source image: an RGBA pixel buffer, observed through its
dimensions (pixel payload delegated to the external image library). -/
structure Img where
  w : Int
  h : Int
deriving DecidableEq, Repr

/-- `load_and_scale_image()`: missing path or undecodable file raise
`ConfigError`; otherwise the image is uniformly scaled, either to
`TARGET_PIXEL_WIDTH` (height follows the aspect ratio) or by `SCALE`. -/
def load_and_scale_image (cfg : Config) (fs : FS) : Except Err Img :=
  match lookupFile fs cfg.input_image with
  | none => .error (.config ("Input image not found: " ++ cfg.input_image))
  | some .other => .error (.config ("Failed to load image " ++ cfg.input_image))
  | some (.png _ _ _ _ _) => .error (.config ("Failed to load image " ++ cfg.input_image))
  | some (.image w0 h0) =>
    if tpwTruthy cfg.target_pixel_width then
      let target_w := cfg.target_pixel_width.getD 0
      let scale : Rat := ratDiv (target_w : Rat) (w0 : Rat)
      .ok ⟨target_w, py_round (ratMul (h0 : Rat) scale)⟩
    else
      .ok ⟨py_round (ratMul (w0 : Rat) cfg.scale), py_round (ratMul (h0 : Rat) cfg.scale)⟩

/-- `compute_base_position(img_w, img_h)`: centred placement with offset
(Python `//` is floor division, `Int.fdiv`), or the literal configured
coordinates in `coords` mode. -/
def compute_base_position (cfg : Config) (img_w img_h : Int) : Int × Int :=
  if cfg.base_pos_mode = "center" then
    ((cfg.out_w - img_w).fdiv 2 + cfg.base_center_offset_x,
     (cfg.out_h - img_h).fdiv 2 + cfg.base_center_offset_y)
  else
    (cfg.base_x, cfg.base_y)

/-- `zero_pad_width(total)` from `src/generate_frames.py`:
`max(4, len(str(int(total))))`. -/
def zero_pad_width (total : Int) : Nat :=
  max 4 (Int.repr total).length

/-- Python's `{:0Nd}` format of a non-negative integer: the decimal
digits, left-padded with zeros to width `w` (never truncated). -/
def zeroPad (w : Nat) (n : Nat) : String :=
  let s := Nat.repr n
  String.mk (List.replicate (w - s.length) '0') ++ s

/-- The file name the generation loop gives frame `i` (0-based):
`f"{BASENAME}_{{:0{pad}d}}.png".format(i + 1)`. -/
def frame_name (cfg : Config) (i : Nat) : String :=
  cfg.basename ++ "_" ++ zeroPad (zero_pad_width cfg.total_frames) (i + 1) ++ ".png"

/-- `os.path.join(FRAMES_DIR, outname)` for frame `i`. -/
def frame_outpath (cfg : Config) (i : Nat) : String :=
  cfg.frames_dir ++ "/" ++ frame_name cfg i

/-- `os.path.join(OUTPUT_DIR, f"{BASENAME}_preview.png")`. -/
def preview_path (cfg : Config) : String :=
  cfg.output_dir ++ "/" ++ cfg.basename ++ "_preview.png"

/-- `build_preview(...)`: renders the image over a checkerboard at the
given paste position and saves it (checkerboard pixels live in the
external image library; the observable effect is the written file). -/
def build_preview (canvas_w canvas_h : Int) (img : Img) (paste_xy : Int × Int)
    (outpath : String) (fs : FS) : FS :=
  writeFile fs outpath (.png canvas_w canvas_h img.w img.h paste_xy)

/-- `perlin_like_offsets(...)`: noise sampled along a line of the 2D
field, decorrelated per axis by the seed offsets, scaled by the
amplitudes.  `gen.noise2d` is passed in as the pure function `noise2d`. -/
noncomputable def perlin_like_offsets (noise2d : ℝ → ℝ → ℝ)
    (t_seconds amp_x amp_y timescale_seconds : ℝ)
    (seed_offset_x seed_offset_y : ℝ) : ℝ × ℝ :=
  let freq := 1 / max (1 / 1000000) timescale_seconds
  let nx := noise2d (t_seconds * freq + seed_offset_x) 0
  let ny := noise2d (t_seconds * freq + seed_offset_y) 33.33
  (nx * amp_x, ny * amp_y)

/-- `sine_offsets(...)`: periodic offsets over the normalised time, with
the fixed 1.7-radian phase on the y axis. -/
noncomputable def sine_offsets (t_seconds duration amp_x amp_y cycles_x cycles_y : ℝ) : ℝ × ℝ :=
  let t_norm := t_seconds / max (1 / 1000000000) duration
  (Real.sin (2 * Real.pi * (t_norm * cycles_x)) * amp_x,
   Real.sin (2 * Real.pi * (t_norm * cycles_y) + 1.7) * amp_y)

/-- One iteration of the generation loop for frame `i`: timestamp,
motion offsets by the active strategy, rounded paste coordinates, fresh
canvas with the image composited (Python's float `round` at an exact
half differs from `round` here — half to even versus half up — a case no
property below touches). -/
noncomputable def frame_render (cfg : Config) (img : Img) (gen : OpenSimplex)
    (noiseFn : Int → ℝ → ℝ → ℝ) (base : Int × Int) (i : Nat) : FileData :=
  let t_seconds : ℝ := (i : ℝ) * ((cfg.duration_seconds : ℝ) / ((max 1 cfg.total_frames : Int) : ℝ))
  let off :=
    if cfg.motion_mode = "perlin" then
      perlin_like_offsets (noiseFn gen.seed) t_seconds (cfg.amp_x : ℝ) (cfg.amp_y : ℝ)
        (cfg.noise_timescale_seconds : ℝ) 0 100
    else
      sine_offsets t_seconds (cfg.duration_seconds : ℝ) (cfg.amp_x : ℝ) (cfg.amp_y : ℝ)
        (cfg.sine_cycles_x : ℝ) (cfg.sine_cycles_y : ℝ)
  let paste_x := round ((base.1 : ℝ) + off.1)
  let paste_y := round ((base.2 : ℝ) + off.2)
  .png cfg.out_w cfg.out_h img.w img.h (paste_x, paste_y)

instance {ε α : Type} [DecidableEq ε] [DecidableEq α] : DecidableEq (Except ε α) := fun x y =>
  match x, y with
  | .ok a, .ok b =>
    if h : a = b then isTrue (by rw [h]) else isFalse (fun hh => by cases hh; exact h rfl)
  | .error e, .error f =>
    if h : e = f then isTrue (by rw [h]) else isFalse (fun hh => by cases hh; exact h rfl)
  | .ok _, .error _ => isFalse (fun hh => by cases hh)
  | .error _, .ok _ => isFalse (fun hh => by cases hh)

/-- Result of one `generate_frames` run: the outcome (normal return or
raised exception), the filesystem and random-source state after the run,
and the seed of the noise generator if one was constructed. -/
structure RunResult where
  outcome : Except Err Unit
  fs : FS
  rng : Rng
  noiseConstructed : Option Int
deriving DecidableEq

/-- `generate_frames(preview_only)`: validate eagerly, create the output
directories, load and scale the image (any failure there is re-raised as
`GenerationError("setup failed")` by the enclosing `except Exception`
block), write the preview, stop there in preview-only mode, otherwise
construct the noise generator and write every frame of the sequence. -/
noncomputable def generate_frames (cfg : Config) (preview_only : Bool)
    (noiseFn : Int → ℝ → ℝ → ℝ) (fs : FS) (rng : Rng) : RunResult :=
  match validate_config cfg with
  | some e => ⟨.error e, fs, rng, none⟩
  | none =>
    let fs1 := ensure_dirs cfg fs
    match load_and_scale_image cfg fs1 with
    | .error _ => ⟨.error (.generation "setup failed"), fs1, rng, none⟩
    | .ok img =>
      let base := compute_base_position cfg img.w img.h
      let fs2 := build_preview cfg.out_w cfg.out_h img base (preview_path cfg) fs1
      if preview_only then ⟨.ok (), fs2, rng, none⟩
      else
        let mn := make_noise (some cfg.noise_seed) rng
        let fs3 := (List.range cfg.total_frames.toNat).foldl
          (fun acc i => writeFile acc (frame_outpath cfg i)
            (frame_render cfg img mn.1.1 noiseFn base i)) fs2
        ⟨.ok (), fs3, mn.2, some mn.1.2⟩

namespace Encode

/-- `zero_pad_width(total)` from `src/encode_webm.py` — the encoder
repeats the generator's definition verbatim. -/
def zero_pad_width (total : Int) : Nat :=
  max 4 (Int.repr total).length

/-- The configuration globals of `src/encode_webm.py`. -/
structure EncConfig where
  frames_dir : String
  final_dir : String
  basename : String
  fps : Int
  total_frames : Int
deriving DecidableEq, Repr

/-- `build_pattern_and_out()`: the ffmpeg input pattern
`f"{BASENAME}_%0{pad}d.png"` and the output path
`os.path.join(FINAL_DIR, f"{BASENAME}.webm")`. -/
def build_pattern_and_out (ec : EncConfig) : String × String :=
  let pad := zero_pad_width ec.total_frames
  (ec.basename ++ "_%0" ++ Nat.repr pad ++ "d.png",
   ec.final_dir ++ "/" ++ ec.basename ++ ".webm")

/-- Modelled from the spec: ffmpeg's image2 demuxer reads the sequence
pattern `<basename>_%0<pad>d.png` (run with `cwd=FRAMES_DIR`, so file
names are relative to the frames directory) as the files obtained by
substituting the index, zero-padded to `pad` digits, printf-style. -/
def pattern_filename (basename : String) (pad : Nat) (idx : Nat) : String :=
  basename ++ "_" ++ zeroPad pad idx ++ ".png"

end Encode

/-! Concrete sample data used by the closed theorems below. -/

/-- The default configuration of `src/generate_frames.py` (every value as
resolved when no environment variable is set). -/
def cfgDefault : Config where
  input_image := "input/image.png"
  output_dir := "output"
  frames_dir := "output/frames"
  final_dir := "output/final"
  basename := "testframe"
  out_w := 1080
  out_h := 1920
  duration_seconds := 30
  fps := 30
  total_frames := 900
  target_pixel_width := none
  scale := mkRat 65 100
  base_pos_mode := "center"
  base_center_offset_x := 0
  base_center_offset_y := 0
  base_x := 100
  base_y := 200
  motion_mode := "perlin"
  amp_x := 18
  amp_y := 12
  noise_timescale_seconds := 12
  noise_seed := ""
  sine_cycles_x := mkRat 6 10
  sine_cycles_y := mkRat 5 10

/-- The configuration of the spec scenario "canvas 200×100, image 50×20,
CENTERED with offset (5,−3)". -/
def cfgC2 : Config :=
  { cfgDefault with
    out_w := 200, out_h := 100,
    base_pos_mode := "center",
    base_center_offset_x := 5, base_center_offset_y := -3 }

/-- An explicit-coordinates configuration used by closed instances. -/
def cfgCoords : Config :=
  { cfgDefault with base_pos_mode := "coords", base_x := 7, base_y := 9 }

/-- A small valid running configuration: three frames from `in.png`. -/
def cfgRun : Config :=
  { cfgDefault with input_image := "in.png", total_frames := 3 }

/-- A filesystem holding a 32×16 source image at `in.png`. -/
def fsRun : FS := ⟨[("in.png", FileData.image 32 16)], []⟩

/-- The scaled image `load_and_scale_image` produces from `fsRun` under
`cfgRun` (32×16 at scale 0.65, rounded). -/
def imgRun : Img := ⟨21, 10⟩

/-- Encoder configuration matching `cfgDefault`. -/
def ecSample : Encode.EncConfig :=
  ⟨"output/frames", "output/final", "testframe", 30, 900⟩

example : config_errors cfgDefault = [] := by decide

example :
    (generate_frames { cfgDefault with input_image := "/no/such/file.png" } false
      (fun _ _ _ => 0) ⟨[], []⟩ []) =
    ⟨.error (.generation "setup failed"), ⟨[], ["output/frames", "output/final"]⟩, [], none⟩ := by
  decide

example :
    (generate_frames { cfgDefault with input_image := "in.png" } true
      (fun _ _ _ => 0) ⟨[("in.png", .image 32 16)], []⟩ []) =
    ⟨.ok (),
     ⟨[("output/testframe_preview.png", .png 1080 1920 21 10 (529, 955)),
       ("in.png", .image 32 16)], ["output/frames", "output/final"]⟩, [], none⟩ := by
  decide

/-! ## Helper lemmas -/

lemma ensure_dirs_files (cfg : Config) (fs : FS) : (ensure_dirs cfg fs).files = fs.files := rfl

lemma lookupFile_ensure_dirs (cfg : Config) (fs : FS) (p : String) :
    lookupFile (ensure_dirs cfg fs) p = lookupFile fs p := rfl

lemma load_ok_of_image (cfg : Config) (fs : FS) (w0 h0 : Nat)
    (h : lookupFile fs cfg.input_image = some (.image w0 h0)) :
    ∃ img, load_and_scale_image cfg fs = .ok img := by
  unfold load_and_scale_image
  rw [h]
  by_cases htpw : tpwTruthy cfg.target_pixel_width <;> simp [htpw]

lemma generate_frames_true_eq (cfg : Config) (noiseFn : Int → ℝ → ℝ → ℝ)
    (fs : FS) (rng : Rng) (img : Img)
    (h1 : validate_config cfg = none)
    (h2 : load_and_scale_image cfg (ensure_dirs cfg fs) = .ok img) :
    generate_frames cfg true noiseFn fs rng =
      ⟨.ok (),
       build_preview cfg.out_w cfg.out_h img (compute_base_position cfg img.w img.h)
         (preview_path cfg) (ensure_dirs cfg fs),
       rng, none⟩ := by
  unfold generate_frames
  rw [h1]
  simp [h2]

lemma generate_frames_false_eq (cfg : Config) (noiseFn : Int → ℝ → ℝ → ℝ)
    (fs : FS) (rng : Rng) (img : Img)
    (h1 : validate_config cfg = none)
    (h2 : load_and_scale_image cfg (ensure_dirs cfg fs) = .ok img) :
    generate_frames cfg false noiseFn fs rng =
      ⟨.ok (),
       (List.range cfg.total_frames.toNat).foldl
         (fun acc i => writeFile acc (frame_outpath cfg i)
           (frame_render cfg img (make_noise (some cfg.noise_seed) rng).1.1 noiseFn
             (compute_base_position cfg img.w img.h) i))
         (build_preview cfg.out_w cfg.out_h img (compute_base_position cfg img.w img.h)
           (preview_path cfg) (ensure_dirs cfg fs)),
       (make_noise (some cfg.noise_seed) rng).2,
       some (make_noise (some cfg.noise_seed) rng).1.2⟩ := by
  unfold generate_frames
  rw [h1]
  simp [h2]

lemma foldl_writeFile_files (f : Nat → String) (g : Nat → FileData) :
    ∀ (l : List Nat) (fs : FS),
      (l.foldl (fun acc j => writeFile acc (f j) (g j)) fs).files
        = (l.map (fun j => (f j, g j))).reverse ++ fs.files
  | [], _ => rfl
  | a :: l, fs => by
    rw [List.foldl_cons, foldl_writeFile_files f g l (writeFile fs (f a) (g a))]
    simp [writeFile]

lemma randint_mem (lo hi : Int) (rng : Rng) (h : lo ≤ hi) :
    lo ≤ (randint lo hi rng).1 ∧ (randint lo hi rng).1 ≤ hi := by
  simp only [randint]
  have h0 := Int.emod_nonneg ((rng.headD 0 : Int)) (show hi - lo + 1 ≠ 0 by omega)
  have h1 := Int.emod_lt_of_pos ((rng.headD 0 : Int)) (show (0:Int) < hi - lo + 1 by omega)
  omega

lemma length_toDigitsCore :
    ∀ (fuel n : Nat) (ds : List Char), 0 < fuel → n < 10 ^ fuel →
      (Nat.toDigitsCore 10 fuel n ds).length
        = (if n = 0 then 1 else Nat.log 10 n + 1) + ds.length := by
  intro fuel
  induction fuel with
  | zero => intro n ds h; exact absurd h (by omega)
  | succ f ih =>
    intro n ds _ hlt
    simp only [Nat.toDigitsCore]
    by_cases hdiv : n / 10 = 0
    · have hd := Nat.div_add_mod n 10
      have hm : n % 10 < 10 := Nat.mod_lt _ (by norm_num)
      have hn10 : n < 10 := by omega
      by_cases hn : n = 0
      · simp [hdiv, hn, List.length_cons]
        omega
      · have hlog : Nat.log 10 n = 0 := Nat.log_eq_zero_iff.mpr (Or.inl hn10)
        simp [hdiv, hn, hlog, List.length_cons]
        omega
    · have hge : 10 ≤ n := by
        rcases Nat.lt_or_ge n 10 with h | h
        · exact absurd (Nat.div_eq_of_lt h) hdiv
        · exact h
      have hf : 0 < f := by
        rcases Nat.eq_zero_or_pos f with h0 | h0
        · subst h0; simp at hlt; omega
        · exact h0
      have hlt2 : n / 10 < 10 ^ f := Nat.nat_repr_len_aux n 10 f (by norm_num) hlt
      rw [if_neg hdiv, ih (n / 10) (Nat.digitChar (n % 10) :: ds) hf hlt2]
      have hn0 : n ≠ 0 := by omega
      have hlogpos : 0 < Nat.log 10 n := Nat.log_pos (by norm_num) hge
      have hlogdiv : Nat.log 10 (n / 10) = Nat.log 10 n - 1 := Nat.log_div_base 10 n
      rw [if_neg hdiv, if_neg hn0, hlogdiv, List.length_cons]
      omega

lemma nat_repr_length (n : Nat) :
    (Nat.repr n).length = if n = 0 then 1 else Nat.log 10 n + 1 := by
  have hlt : n < 10 ^ (n + 1) :=
    lt_trans (Nat.lt_pow_self (by norm_num) n) (Nat.pow_lt_pow_succ (by norm_num))
  have h := length_toDigitsCore (n + 1) n [] (Nat.succ_pos n) hlt
  simpa [Nat.repr, Nat.toDigits, String.length, List.asString] using h

lemma int_repr_length_of_pos (total : Int) (h : 0 < total) :
    (Int.repr total).length = Nat.log 10 total.toNat + 1 := by
  rcases total with n | n
  · have hn : n ≠ 0 := by
      simp only [Int.ofNat_eq_coe] at h
      exact_mod_cast Nat.pos_iff_ne_zero.mp (by exact_mod_cast h)
    show (Nat.repr n).length = _
    rw [nat_repr_length, if_neg hn]
    rfl
  · exfalso
    have h2 := Int.negSucc_lt_zero n
    omega

/-! ## Claim theorems -/

/-- Claim C2 (counterexample): with a 200×100 canvas, a 50×20 image,
CENTERED mode and center offset (5,−3), `compute_base_position` does not
return (80,47): the floor-division formula gives y = (100−20)//2 − 3 = 37,
not 47. -/
theorem claim_C2_counterexample : compute_base_position cfgC2 50 20 ≠ (80, 47) := by
  decide

/-- Claim C2 (amended): for a 200×100 canvas and a 50×20 image in
CENTERED mode with center offset (5,−3), `compute_base_position` returns
the base position (80,37). -/
theorem claim_C2 (cfg : Config)
    (hw : cfg.out_w = 200) (hh : cfg.out_h = 100)
    (hm : cfg.base_pos_mode = "center")
    (hx : cfg.base_center_offset_x = 5) (hy : cfg.base_center_offset_y = -3) :
    compute_base_position cfg 50 20 = (80, 37) := by
  simp [compute_base_position, hw, hh, hm, hx, hy]

/-- Claim C2 witness: the amended claim at the concrete scenario
configuration. -/
theorem claim_C2_witness : compute_base_position cfgC2 50 20 = (80, 37) :=
  claim_C2 cfgC2 rfl rfl rfl rfl rfl

/-- Claim C5: in CENTERED mode `compute_base_position` returns exactly
`((canvas_w − image_w) // 2 + offset_x, (canvas_h − image_h) // 2 +
offset_y)` with floor division, for every image and canvas size; in
EXPLICIT (`coords`) mode it returns the configured literal coordinates
unconditionally, ignoring the image dimensions. -/
theorem claim_C5 (cfg : Config) (img_w img_h img_w2 img_h2 : Int) :
    (cfg.base_pos_mode = "center" →
      compute_base_position cfg img_w img_h =
        ((cfg.out_w - img_w).fdiv 2 + cfg.base_center_offset_x,
         (cfg.out_h - img_h).fdiv 2 + cfg.base_center_offset_y))
    ∧ (cfg.base_pos_mode = "coords" →
      compute_base_position cfg img_w img_h = (cfg.base_x, cfg.base_y)
      ∧ compute_base_position cfg img_w img_h = compute_base_position cfg img_w2 img_h2) := by
  constructor
  · intro h
    simp [compute_base_position, h]
  · intro h
    have hne : cfg.base_pos_mode ≠ "center" := by rw [h]; decide
    simp [compute_base_position, hne]

/-- Claim C5 witness: both branches at concrete configurations. -/
theorem claim_C5_witness :
    (compute_base_position cfgC2 50 20 =
      ((cfgC2.out_w - 50).fdiv 2 + cfgC2.base_center_offset_x,
       (cfgC2.out_h - 20).fdiv 2 + cfgC2.base_center_offset_y))
    ∧ (compute_base_position cfgCoords 50 20 = (cfgCoords.base_x, cfgCoords.base_y)
      ∧ compute_base_position cfgCoords 50 20 = compute_base_position cfgCoords 11 12) :=
  ⟨(claim_C5 cfgC2 50 20 11 12).1 rfl, (claim_C5 cfgCoords 50 20 11 12).2 rfl⟩

/-- Claim C7: frame filenames use a zero-padded one-based index with
padding width `max(4, digit count of the total frame count)`:
`zero_pad_width` equals that formula for every positive total, the
scenario values 5 → 4 and 10000 → 5 hold, and frame `i` (0-based) is
persisted as `<basename>_<i+1 zero-padded>.png` under the frames
directory by every successful full run. -/
theorem claim_C7 :
    (∀ total : Int, 0 < total →
      zero_pad_width total = max 4 (Nat.digits 10 total.toNat).length)
    ∧ zero_pad_width 5 = 4
    ∧ zero_pad_width 10000 = 5
    ∧ (∀ (cfg : Config) (i : Nat),
        frame_name cfg i
          = cfg.basename ++ "_" ++ zeroPad (zero_pad_width cfg.total_frames) (i + 1) ++ ".png")
    ∧ (∀ (cfg : Config) (noiseFn : Int → ℝ → ℝ → ℝ) (fs : FS) (rng : Rng) (img : Img),
        validate_config cfg = none →
        load_and_scale_image cfg (ensure_dirs cfg fs) = .ok img →
        ∀ i, i < cfg.total_frames.toNat →
          frame_outpath cfg i ∈ (generate_frames cfg false noiseFn fs rng).fs.files.map Prod.fst) := by
  refine ⟨?_, by decide, by decide, fun cfg i => rfl, ?_⟩
  · intro total ht
    have h1 := int_repr_length_of_pos total ht
    have htn : total.toNat ≠ 0 := by omega
    rw [zero_pad_width, h1, Nat.digits_len 10 total.toNat (by norm_num) htn]
  · intro cfg noiseFn fs rng img h1 h2 i hi
    rw [generate_frames_false_eq cfg noiseFn fs rng img h1 h2]
    show frame_outpath cfg i ∈ (_ : FS).files.map Prod.fst
    rw [foldl_writeFile_files]
    simp only [List.map_append, List.map_reverse, List.map_map, List.mem_append,
      List.mem_reverse, List.mem_map, Function.comp]
    exact Or.inl ⟨i, List.mem_range.mpr hi, rfl⟩

/-- Claim C7 witness: the padding formula at total 5, and frame 0 of a
concrete three-frame run persisted under the padded name. -/
theorem claim_C7_witness :
    (0 < (5 : Int) ∧ zero_pad_width 5 = max 4 (Nat.digits 10 (5 : Int).toNat).length)
    ∧ (validate_config cfgRun = none
      ∧ load_and_scale_image cfgRun (ensure_dirs cfgRun fsRun) = .ok imgRun
      ∧ 0 < cfgRun.total_frames.toNat
      ∧ frame_outpath cfgRun 0
          ∈ (generate_frames cfgRun false (fun _ _ _ => 0) fsRun []).fs.files.map Prod.fst) :=
  ⟨⟨by decide, claim_C7.1 5 (by decide)⟩,
   by decide, by decide, by decide,
   claim_C7.2.2.2.2 cfgRun (fun _ _ _ => 0) fsRun [] imgRun (by decide) (by decide) 0 (by decide)⟩

/-- Claim C10: the generator and the encoder define `zero_pad_width`
twice and the definitions agree at every total frame count, so the
encoder's input pattern `<basename>_%0<pad>d.png` (expanded printf-style
per index) names exactly the files the generator wrote for the same
`BASENAME` and `TOTAL_FRAMES`. -/
theorem claim_C10 :
    (∀ total : Int, Encode.zero_pad_width total = zero_pad_width total)
    ∧ (∀ ec : Encode.EncConfig,
        Encode.build_pattern_and_out ec
          = (ec.basename ++ "_%0" ++ Nat.repr (Encode.zero_pad_width ec.total_frames) ++ "d.png",
             ec.final_dir ++ "/" ++ ec.basename ++ ".webm"))
    ∧ (∀ (ec : Encode.EncConfig) (cfg : Config) (i : Nat),
        ec.basename = cfg.basename → ec.total_frames = cfg.total_frames →
        Encode.pattern_filename ec.basename (Encode.zero_pad_width ec.total_frames) (i + 1)
          = frame_name cfg i) := by
  refine ⟨fun _ => rfl, fun _ => rfl, ?_⟩
  intro ec cfg i hb ht
  rw [Encode.pattern_filename, frame_name, hb, ht]
  rfl

/-- Claim C10 witness: the encoder's expected file for index 1 equals the
generator's name for frame 0 at matching basename and total. -/
theorem claim_C10_witness :
    ecSample.basename = cfgDefault.basename
    ∧ ecSample.total_frames = cfgDefault.total_frames
    ∧ Encode.pattern_filename ecSample.basename (Encode.zero_pad_width ecSample.total_frames) (0 + 1)
        = frame_name cfgDefault 0 :=
  ⟨rfl, rfl, claim_C10.2.2 ecSample cfgDefault 0 rfl rfl⟩

/-- Claim C3: `make_noise` is a determinism round-trip.  With an explicit
integer-parsing seed string, two calls report the same seed and build
generators whose `noise2d` (a pure function of seed and coordinates)
agrees at every query point, independently of the random-source state;
with no seed, the seed is drawn from the process-wide random source, the
generator is built from exactly the reported seed, and re-supplying the
reported seed reproduces the generator. -/
theorem claim_C3 :
    (∀ (s : String) (k : Int) (rng1 rng2 : Rng),
      pyInt s = some k →
        (make_noise (some s) rng1).1 = (make_noise (some s) rng2).1
        ∧ (make_noise (some s) rng1).1.2 = k
        ∧ (make_noise (some s) rng1).1.1 = ⟨k⟩
        ∧ (make_noise (some s) rng1).2 = rng1
        ∧ (∀ (noiseFn : Int → ℝ → ℝ → ℝ) (x y : ℝ),
            noiseFn (make_noise (some s) rng1).1.1.seed x y
              = noiseFn (make_noise (some s) rng2).1.1.seed x y))
    ∧ (∀ rng : Rng,
        (make_noise none rng).1.2 = (randint 0 (2 ^ 30 - 1) rng).1
        ∧ (make_noise none rng).1.1 = ⟨(make_noise none rng).1.2⟩
        ∧ (∀ (s2 : String) (rng2 : Rng),
            pyInt s2 = some ((make_noise none rng).1.2) →
            (make_noise (some s2) rng2).1.1 = (make_noise none rng).1.1)) := by
  constructor
  · intro s k rng1 rng2 h
    have hs : ¬ s = "" := by
      intro hs
      rw [hs, show pyInt "" = none from rfl] at h
      exact Option.noConfusion h
    refine ⟨?_, ?_, ?_, ?_, ?_⟩ <;> simp [make_noise, hs, h]
  · intro rng
    refine ⟨rfl, rfl, ?_⟩
    intro s2 rng2 h2
    have hs2 : ¬ s2 = "" := by
      intro hs
      rw [hs, show pyInt "" = none from rfl] at h2
      exact Option.noConfusion h2
    simp [make_noise, hs2, h2]

/-- Claim C3 witness: the determinism round-trip at seed string "123"
over two distinct random-source states, and the no-seed draw at a
concrete state. -/
theorem claim_C3_witness :
    (pyInt "123" = some 123
      ∧ ((make_noise (some "123") [0]).1 = (make_noise (some "123") [7]).1
        ∧ (make_noise (some "123") [0]).1.2 = 123
        ∧ (make_noise (some "123") [0]).1.1 = ⟨123⟩
        ∧ (make_noise (some "123") [0]).2 = [0]
        ∧ (∀ (noiseFn : Int → ℝ → ℝ → ℝ) (x y : ℝ),
            noiseFn (make_noise (some "123") [0]).1.1.seed x y
              = noiseFn (make_noise (some "123") [7]).1.1.seed x y)))
    ∧ ((make_noise none [5]).1.2 = (randint 0 (2 ^ 30 - 1) [5]).1
      ∧ (make_noise none [5]).1.1 = ⟨(make_noise none [5]).1.2⟩
      ∧ (∀ (s2 : String) (rng2 : Rng),
          pyInt s2 = some ((make_noise none [5]).1.2) →
          (make_noise (some s2) rng2).1.1 = (make_noise none [5]).1.1)) :=
  ⟨⟨by decide, claim_C3.1 "123" 123 [0] [7] (by decide)⟩, claim_C3.2 [5]⟩

/-- Claim C9: a non-empty seed string that does not parse as an integer
does not raise and does not make validation fail; `make_noise` silently
falls back to a random seed in `[0, 2^30 − 1]`, so the run is not
reproducible by re-supplying the same string (different random states
give different seeds), only by supplying the reported integer seed. -/
theorem claim_C9 (s : String) (rng : Rng) (hs : s ≠ "") (hp : pyInt s = none) :
    make_noise (some s) rng
      = ((⟨(randint 0 (2 ^ 30 - 1) rng).1⟩, (randint 0 (2 ^ 30 - 1) rng).1),
         (randint 0 (2 ^ 30 - 1) rng).2)
    ∧ 0 ≤ (make_noise (some s) rng).1.2
    ∧ (make_noise (some s) rng).1.2 ≤ 2 ^ 30 - 1
    ∧ (∀ cfg : Config, validate_config { cfg with noise_seed := s } = validate_config cfg)
    ∧ (∃ rng1 rng2 : Rng,
        (make_noise (some s) rng1).1.2 ≠ (make_noise (some s) rng2).1.2)
    ∧ (∀ (s2 : String) (rng2 : Rng),
        pyInt s2 = some ((make_noise (some s) rng).1.2) →
        (make_noise (some s2) rng2).1.1 = (make_noise (some s) rng).1.1) := by
  have hmn : ∀ r : Rng, make_noise (some s) r
      = ((⟨(randint 0 (2 ^ 30 - 1) r).1⟩, (randint 0 (2 ^ 30 - 1) r).1),
         (randint 0 (2 ^ 30 - 1) r).2) := by
    intro r
    simp [make_noise, hs, hp]
  refine ⟨hmn rng, ?_, ?_, fun cfg => rfl, ?_, ?_⟩
  · rw [hmn rng]
    exact (randint_mem 0 (2 ^ 30 - 1) rng (by norm_num)).1
  · rw [hmn rng]
    exact (randint_mem 0 (2 ^ 30 - 1) rng (by norm_num)).2
  · refine ⟨[0], [1], ?_⟩
    rw [hmn [0], hmn [1]]
    norm_num [randint]
  · intro s2 rng2 h2
    have hs2 : ¬ s2 = "" := by
      intro hh
      rw [hh, show pyInt "" = none from rfl] at h2
      exact Option.noConfusion h2
    simp [make_noise, hs2, h2]

/-- Claim C9 witness: the fallback at the unparseable seed "drift" with
random state `[5]`. -/
theorem claim_C9_witness :
    ("drift" : String) ≠ "" ∧ pyInt "drift" = none
    ∧ (make_noise (some "drift") [5]
        = ((⟨(randint 0 (2 ^ 30 - 1) [5]).1⟩, (randint 0 (2 ^ 30 - 1) [5]).1),
           (randint 0 (2 ^ 30 - 1) [5]).2)
      ∧ 0 ≤ (make_noise (some "drift") [5]).1.2
      ∧ (make_noise (some "drift") [5]).1.2 ≤ 2 ^ 30 - 1
      ∧ (∀ cfg : Config,
          validate_config { cfg with noise_seed := "drift" } = validate_config cfg)
      ∧ (∃ rng1 rng2 : Rng,
          (make_noise (some "drift") rng1).1.2 ≠ (make_noise (some "drift") rng2).1.2)
      ∧ (∀ (s2 : String) (rng2 : Rng),
          pyInt s2 = some ((make_noise (some "drift") [5]).1.2) →
          (make_noise (some s2) rng2).1.1 = (make_noise (some "drift") [5]).1.1)) :=
  ⟨by decide, by decide, claim_C9 "drift" [5] (by decide) (by decide)⟩

lemma abs_mul_le_of_abs_le_one {u a : ℝ} (hu : |u| ≤ 1) (ha : 0 ≤ a) : |u * a| ≤ a := by
  rw [abs_mul]
  calc |u| * |a| ≤ 1 * |a| := mul_le_mul_of_nonneg_right hu (abs_nonneg a)
    _ = a := by rw [one_mul, abs_of_nonneg ha]

/-- Claim C4 (counterexample): the bound fails as stated for arbitrary
amplitudes — at `t = 0`, `amp_x = −1` the periodic strategy gives
`dx = 0` and `|0| ≤ −1` is false. -/
theorem claim_C4_counterexample :
    ¬ |(sine_offsets 0 1 (-1) 0 1 1).1| ≤ (-1 : ℝ) := by
  have h : (sine_offsets 0 1 (-1) 0 1 1).1 = 0 := by
    simp [sine_offsets]
  rw [h]
  norm_num

/-- Claim C4 (amended): for all times and **non-negative** amplitudes,
both motion strategies are bounded: `perlin_like_offsets` (under the
hypothesis that `noise2d` output lies in [−1,1]) and `sine_offsets`
satisfy `|dx| ≤ amp_x` and `|dy| ≤ amp_y`. -/
theorem claim_C4 (noise2d : ℝ → ℝ → ℝ)
    (t amp_x amp_y timescale sox soy duration cx cy : ℝ)
    (hax : 0 ≤ amp_x) (hay : 0 ≤ amp_y)
    (hn : ∀ x y : ℝ, |noise2d x y| ≤ 1) :
    |(perlin_like_offsets noise2d t amp_x amp_y timescale sox soy).1| ≤ amp_x
    ∧ |(perlin_like_offsets noise2d t amp_x amp_y timescale sox soy).2| ≤ amp_y
    ∧ |(sine_offsets t duration amp_x amp_y cx cy).1| ≤ amp_x
    ∧ |(sine_offsets t duration amp_x amp_y cx cy).2| ≤ amp_y := by
  have hsin : ∀ z : ℝ, |Real.sin z| ≤ 1 := fun z =>
    abs_le.mpr ⟨Real.neg_one_le_sin z, Real.sin_le_one z⟩
  exact ⟨abs_mul_le_of_abs_le_one (hn _ _) hax,
    abs_mul_le_of_abs_le_one (hn _ _) hay,
    abs_mul_le_of_abs_le_one (hsin _) hax,
    abs_mul_le_of_abs_le_one (hsin _) hay⟩

/-- Claim C4 witness: the amended bound at the constantly-zero noise
field, unit amplitudes and time zero. -/
theorem claim_C4_witness :
    (0 : ℝ) ≤ 1 ∧ (∀ x y : ℝ, |(fun (_ _ : ℝ) => (0:ℝ)) x y| ≤ 1)
    ∧ (|(perlin_like_offsets (fun _ _ => 0) 0 1 1 1 0 0).1| ≤ 1
      ∧ |(perlin_like_offsets (fun _ _ => 0) 0 1 1 1 0 0).2| ≤ 1
      ∧ |(sine_offsets 0 1 1 1 1 1).1| ≤ 1
      ∧ |(sine_offsets 0 1 1 1 1 1).2| ≤ 1) :=
  ⟨zero_le_one, fun _ _ => by simp,
   claim_C4 (fun _ _ => 0) 0 1 1 1 0 0 1 1 1 zero_le_one zero_le_one (fun _ _ => by simp)⟩

/-- Claim C6: at `t = 0`, for every positive duration, amplitudes and
integer cycle counts, the periodic strategy gives `dx = 0` (well within
the 1e-6 tolerance) while `dy = sin(1.7) · amp_y`, nonzero whenever
`amp_y` is nonzero, because of the fixed 1.7-radian phase on the y
axis. -/
theorem claim_C6 (D amp_x amp_y : ℝ) (cx cy : ℤ) (hD : 0 < D) :
    |(sine_offsets 0 D amp_x amp_y cx cy).1| ≤ 1 / 1000000
    ∧ (sine_offsets 0 D amp_x amp_y cx cy).2 = Real.sin 1.7 * amp_y
    ∧ (amp_y ≠ 0 → (sine_offsets 0 D amp_x amp_y cx cy).2 ≠ 0) := by
  have h1 : (sine_offsets 0 D amp_x amp_y cx cy).1 = 0 := by
    simp [sine_offsets]
  have h2 : (sine_offsets 0 D amp_x amp_y cx cy).2 = Real.sin 1.7 * amp_y := by
    simp [sine_offsets]
  have hsin : Real.sin 1.7 ≠ 0 := by
    have hpos : (0:ℝ) < 1.7 := by norm_num
    have hlt : (1.7:ℝ) < Real.pi := lt_trans (by norm_num) Real.pi_gt_three
    exact ne_of_gt (Real.sin_pos_of_pos_of_lt_pi hpos hlt)
  exact ⟨by rw [h1]; norm_num,
    h2,
    fun hay => by rw [h2]; exact mul_ne_zero hsin hay⟩

/-- Claim C6 witness: the zero-time values at duration 1, unit
amplitudes and unit cycle counts. -/
theorem claim_C6_witness :
    (0 : ℝ) < 1
    ∧ (|(sine_offsets 0 1 1 1 ((1:ℤ)) ((1:ℤ))).1| ≤ 1 / 1000000
      ∧ (sine_offsets 0 1 1 1 ((1:ℤ)) ((1:ℤ))).2 = Real.sin 1.7 * 1
      ∧ ((1:ℝ) ≠ 0 → (sine_offsets 0 1 1 1 ((1:ℤ)) ((1:ℤ))).2 ≠ 0)) :=
  ⟨one_pos, claim_C6 1 1 1 1 1 one_pos⟩

/-- Claim C8: a preview-only invocation, for every valid configuration
whose input image is readable and regardless of `TOTAL_FRAMES`, returns
success having written exactly one file — the preview — and zero
sequence frames, leaving the random source untouched and constructing no
noise generator. -/
theorem claim_C8 (cfg : Config) (noiseFn : Int → ℝ → ℝ → ℝ) (fs : FS) (rng : Rng)
    (w0 h0 : Nat)
    (h1 : validate_config cfg = none)
    (h2 : lookupFile fs cfg.input_image = some (.image w0 h0)) :
    ∃ d : FileData,
      generate_frames cfg true noiseFn fs rng
        = ⟨.ok (), ⟨(preview_path cfg, d) :: fs.files, (ensure_dirs cfg fs).dirs⟩, rng, none⟩ := by
  obtain ⟨img, himg⟩ := load_ok_of_image cfg (ensure_dirs cfg fs) w0 h0
    (by rw [lookupFile_ensure_dirs]; exact h2)
  refine ⟨FileData.png cfg.out_w cfg.out_h img.w img.h (compute_base_position cfg img.w img.h), ?_⟩
  rw [generate_frames_true_eq cfg noiseFn fs rng img h1 himg]
  rfl

/-- Claim C8 witness: the preview-only run on the concrete three-frame
configuration writes exactly the preview. -/
theorem claim_C8_witness :
    validate_config cfgRun = none
    ∧ lookupFile fsRun cfgRun.input_image = some (.image 32 16)
    ∧ ∃ d : FileData,
        generate_frames cfgRun true (fun _ _ _ => 0) fsRun []
          = ⟨.ok (), ⟨(preview_path cfgRun, d) :: fsRun.files, (ensure_dirs cfgRun fsRun).dirs⟩,
             [], none⟩ :=
  ⟨by decide, by decide,
   claim_C8 cfgRun (fun _ _ _ => 0) fsRun [] 32 16 (by decide) (by decide)⟩

/-- Claim C1 (code evaluated at the failing input): on a configuration
that passes validation but whose `INPUT_IMAGE` does not exist,
`load_and_scale_image` raises `ConfigError`, but `generate_frames`
converts it and raises `GenerationError("setup failed")` — not a
configuration error — after creating only the idempotent output
directories and writing no frame or preview files. -/
theorem claim_C1 :
    load_and_scale_image { cfgDefault with input_image := "/no/such/file.png" } ⟨[], []⟩
      = .error (.config "Input image not found: /no/such/file.png")
    ∧ generate_frames { cfgDefault with input_image := "/no/such/file.png" } false
        (fun _ _ _ => 0) ⟨[], []⟩ []
      = ⟨.error (.generation "setup failed"),
         ⟨[], ["output/frames", "output/final"]⟩, [], none⟩ := by
  constructor
  · decide
  · decide

end ImageDrift
